import Mathlib

/-!
Verification of the `films_locations` program (file `films_locations.py`).

The Python source is shallowly embedded as follows.

* A file is a `List (Option String)`: each element is one line as produced by
  `f.readlines()`, already decoded; `none` stands for a line whose bytes fail
  to decode as UTF-8 (in the source this raises `UnicodeDecodeError`, which
  `get_locations` catches and ignores).
* Python floats are modelled as real numbers `ℝ`.
* Fallible code returns `Except PyError α`; each `PyError` constructor stands
  for the Python exception class of the same name.  An `Except.error` result
  models an exception that escapes the function uncaught.
* The Nominatim geocoding service is modelled as a function
  `env : String → GeoResponse` giving, for each query string, the observable
  outcome of `requests.get(url).json()`: a network failure (the `requests`
  call raises), a JSON decoding failure (`.json()` raises), or a parsed JSON
  list of results, each of which either yields float `lat`/`lon` fields
  (`some (lat, lon)`) or fails to (`none`, modelling the uncaught
  `KeyError`/`ValueError` from `float(response['lat'])`).
* `folium` is a sink: the rendered map is modelled as the list of markers
  added to the feature group, in placement order; `generate_map` returns that
  list together with the Python return value `1`.
-/

set_option maxHeartbeats 1000000

/-- The tab separator used by `line.split('\t')`. -/
def tabStr : String := "\t"

/-- The opening parenthesis tested by `info[-1].startswith('(')`. -/
def lparenStr : String := "("

/-- The empty string, default of the head/tail accessors below. -/
def emptyStr : String := ""

/-- The tab separator character of `line.split('\t')`. -/
def tabChar : Char := '\t'

/-- Python's `str.split` with an explicit single-character separator, by
structural recursion over the character list: `''.split(sep) == ['']`, and
each separator occurrence opens a new field. -/
def splitOnChar (sep : Char) : List Char → List (List Char)
  | [] => [[]]
  | c :: cs =>
    match splitOnChar sep cs with
    | [] => [[]]
    | f :: fs => if c = sep then [] :: f :: fs else (c :: f) :: fs

/-- `line.split('\t')` on strings. -/
def pySplit (s : String) (sep : Char) : List String :=
  (splitOnChar sep s.data).map String.mk

/-- Python's `str.startswith`: prefix test on the character lists. -/
def pyStartsWith (s pre : String) : Bool := pre.data.isPrefixOf s.data

/-- Python's `str.strip()`: remove leading and trailing whitespace. -/
def pyStrip (s : String) : String :=
  String.mk (((s.data.dropWhile Char.isWhitespace).reverse.dropWhile
    Char.isWhitespace).reverse)

/-- Python exception classes that can escape the embedded functions. -/
inductive PyError where
  | typeError : PyError
  | indexError : PyError
  | keyError : PyError
  | connectionError : PyError
  deriving DecidableEq, Repr

/-- One step of the parsing loop body of `get_locations`:
`info = line.split('\t'); location = info[-1];
if info[-1].startswith('('): location = info[-2]`.
Returns `(info[0], location)`; accessing `info[-2]` on a single-field list
raises `IndexError` (uncaught in the source).  `info.reverse` head is
`info[-1]`, its second element is `info[-2]`. -/
def parseLine (line : String) : Except PyError (String × String) :=
  match pySplit line tabChar with
  | [] => .error .indexError
  | first :: rest =>
    match (first :: rest).reverse with
    | [] => .error .indexError
    | last :: restRev =>
      if pyStartsWith last lparenStr then
        match restRev with
        | [] => .error .indexError
        | second :: _ => .ok (first, second)
      else .ok (first, last)

/-- Insertion-ordered dictionary update modelling
`if info[0] not in films_locations: films_locations[info[0]] = []` followed by
`films_locations[info[0]].append(loc)`. -/
def addLoc (m : List (String × List String)) (title loc : String) :
    List (String × List String) :=
  match m with
  | [] => [(title, [loc])]
  | (t, ls) :: rest =>
    if t = title then (t, ls ++ [loc]) :: rest else (t, ls) :: addLoc rest title loc

/-- The parsing loop of `get_locations` over the post-header lines, with the
dictionary built so far as accumulator.  A `none` line models a
`UnicodeDecodeError`, caught by the `except` clause and skipped. -/
def buildLocations : List (Option String) → List (String × List String) →
    Except PyError (List (String × List String))
  | [], acc => .ok acc
  | none :: rest, acc => buildLocations rest acc
  | some line :: rest, acc =>
    match parseLine line with
    | .error e => .error e
    | .ok (title, loc) => buildLocations rest (addLoc acc title (pyStrip loc))

/-- `get_locations`: skip 14 header lines, then parse every remaining line,
accumulating stripped location strings per title. -/
def get_locations (lines : List (Option String)) :
    Except PyError (List (String × List String)) :=
  buildLocations (lines.drop 14) []

/-- Location field chosen by the specification's words: the last field unless
the last field begins with a parenthesis, in which case the second-to-last
field is used instead. -/
def specChosenField (info : List String) : String :=
  let last := info.reverse.headD emptyStr
  if pyStartsWith last lparenStr then info.reverse.tail.headD emptyStr else last

/-- One line's effect on the mapping, following the specification's words:
first field is the title, the chosen field (stripped) is appended to that
title's list; an undecodable line is skipped. -/
def specStep (acc : List (String × List String)) (oline : Option String) :
    List (String × List String) :=
  match oline with
  | none => acc
  | some line =>
    let info := pySplit line tabChar
    addLoc acc (info.headD emptyStr) (pyStrip (specChosenField info))

/-- The parser described by the specification: skip the first 14 lines, then
fold the per-line step over the data lines, starting from the empty mapping. -/
def get_locations_spec (lines : List (Option String)) : List (String × List String) :=
  (lines.drop 14).foldl specStep []

/-- A line is well-formed when, if it decodes, it splits into at least two
tab-separated fields. -/
def lineOk (os : Option String) : Prop :=
  ∀ s, os = some s → 2 ≤ (pySplit s tabChar).length

instance decLineOk : DecidablePred lineOk
  | none => isTrue (fun _ h => nomatch h)
  | some t =>
    decidable_of_iff (2 ≤ (pySplit t tabChar).length)
      (by
        constructor
        · intro h s hs
          cases hs
          exact h
        · intro h
          exact h t rfl)

noncomputable section

open scoped Classical

/-- Observable behaviour of the geocoding service for one query:
`networkFailure` — `requests.get` raises (e.g. `ConnectionError`);
`badJson` — `.json()` raises `JSONDecodeError`;
`json rs` — the parsed JSON list of results, where each entry either yields
float `lat`/`lon` fields (`some (lat, lon)`) or does not (`none`, in which
case `float(response['lat'])` raises). -/
inductive GeoResponse where
  | networkFailure : GeoResponse
  | badJson : GeoResponse
  | json : List (Option (ℝ × ℝ)) → GeoResponse

/-- `get_coordinates`: `try: response = requests.get(url).json()[0];
return [float(response['lat']), float(response['lon'])]
except (IndexError, json.decoder.JSONDecodeError): return [0, 0]`.
Only `IndexError` (empty result list) and `JSONDecodeError` are caught and
mapped to the `[0, 0]` sentinel; a network failure or a result without
parseable `lat`/`lon` escapes uncaught. -/
def get_coordinates (env : String → GeoResponse) (address : String) :
    Except PyError (ℝ × ℝ) :=
  match env address with
  | .networkFailure => .error .connectionError
  | .badJson => .ok (0, 0)
  | .json [] => .ok (0, 0)
  | .json (none :: _) => .error .keyError
  | .json (some c :: _) => .ok c

/-- `math.radians`: degrees to radians. -/
def radians (x : ℝ) : ℝ := x * Real.pi / 180

/-- `math.atan2 y x` on real numbers (the branches of the C library
function; signed zeros do not exist in `ℝ`). -/
def atan2 (y x : ℝ) : ℝ :=
  if 0 < x then Real.arctan (y / x)
  else if x < 0 then
    if 0 ≤ y then Real.arctan (y / x) + Real.pi else Real.arctan (y / x) - Real.pi
  else if 0 < y then Real.pi / 2
  else if y < 0 then -(Real.pi / 2)
  else 0

/-- `calculate_distance`: the haversine great-circle distance of the source,
taking `[[lat1, lon1], [lat2, lon2]]` and returning kilometres. -/
def calculate_distance : (ℝ × ℝ) × (ℝ × ℝ) → ℝ
  | ((lat1, lon1), (lat2, lon2)) =>
  let radius : ℝ := 6371
  let dlat := radians (lat2 - lat1)
  let dlon := radians (lon2 - lon1)
  let a := Real.sin (dlat / 2) * Real.sin (dlat / 2) +
    Real.cos (radians lat1) * Real.cos (radians lat2) *
      Real.sin (dlon / 2) * Real.sin (dlon / 2)
  let c := 2 * atan2 (Real.sqrt a) (Real.sqrt (1 - a))
  radius * c

/-- The haversine term `a = sin²(Δlat/2) + cos lat1 · cos lat2 · sin²(Δlon/2)`
exactly as written in the specification (inputs in degrees, converted to
radians). -/
def haversine_a (lat1 lon1 lat2 lon2 : ℝ) : ℝ :=
  Real.sin (radians (lat2 - lat1) / 2) ^ 2 +
    Real.cos (radians lat1) * Real.cos (radians lat2) *
      Real.sin (radians (lon2 - lon1) / 2) ^ 2

/-- The distance `2·R·atan2(√a, √(1−a))` with `R = 6371`, exactly as written
in the specification. -/
def haversine_spec (lat1 lon1 lat2 lon2 : ℝ) : ℝ :=
  2 * 6371 *
    atan2 (Real.sqrt (haversine_a lat1 lon1 lat2 lon2))
      (Real.sqrt (1 - haversine_a lat1 lon1 lat2 lon2))

/-- Stable insertion of a `[distance, location]` pair into a list sorted
ascending by distance: the pair goes before the first entry whose key is not
smaller. -/
def insertPair (x : ℝ × String) : List (ℝ × String) → List (ℝ × String)
  | [] => [x]
  | y :: ys => if x.1 ≤ y.1 then x :: y :: ys else y :: insertPair x ys

/-- `sorted(pairs, key=lambda x: x[0])`: Python's `sorted` is a stable
ascending sort by the key; a stable sort's output is unique, so insertion
sort (inserting after equal keys) computes it. -/
def sortPairs : List (ℝ × String) → List (ℝ × String)
  | [] => []
  | x :: xs => insertPair x (sortPairs xs)

/-- The inner loop of `sort_by_distance` for one film: geocode each location,
keep `[calculate_distance([start, coords]), location]` for every location
whose coordinates are not the `[0, 0]` sentinel, appending in order.  An
exception from `get_coordinates` escapes. -/
def collectPairs (env : String → GeoResponse) (start : ℝ × ℝ) :
    List String → List (ℝ × String) → Except PyError (List (ℝ × String))
  | [], acc => .ok acc
  | loc :: rest, acc =>
    match get_coordinates env loc with
    | .error e => .error e
    | .ok coords =>
      if coords = ((0 : ℝ), (0 : ℝ)) then collectPairs env start rest acc
      else collectPairs env start rest (acc ++ [(calculate_distance (start, coords), loc)])

/-- `sort_by_distance`: per film, collect the `[distance, location]` pairs of
the locations that geocode away from the sentinel, then sort them by
distance. -/
def sort_by_distance (env : String → GeoResponse)
    (locations : List (String × List String)) (start : ℝ × ℝ) :
    Except PyError (List (String × List (ℝ × String))) :=
  match locations with
  | [] => .ok []
  | (film, locs) :: rest =>
    match collectPairs env start locs [] with
    | .error e => .error e
    | .ok pairs =>
      match sort_by_distance env rest start with
      | .error e => .error e
      | .ok restOut => .ok ((film, sortPairs pairs) :: restOut)

/-- A `folium.Marker` added to the feature group: its coordinates and the
film title used as popup label. -/
structure Marker where
  coordinates : ℝ × ℝ
  popup : String

/-- The mutable state of the selection walk in `generate_map`: the marker
counter `number`, the `visited` set of already-placed raw location values,
and the markers added so far, in placement order. -/
structure WalkState (Elem : Type) where
  number : Nat
  visited : List Elem
  markers : List Marker

/-- The inner `for location in locations[element]` loop of `generate_map`.
`Elem` is the runtime type of the dictionary's list entries: strings in
radius mode, `[distance, location]` pairs after `sort_by_distance` in ranked
mode.  `geocodeElem` models `get_coordinates(location)` on such an entry.
The condition mirrors the short-circuit
`coordinates != [0,0] and calculate_distance([start, coords]) <= radius and
location not in visited`: comparing a float with `radius = None` raises
`TypeError`. -/
def placeLocations {Elem : Type} (geocodeElem : Elem → Except PyError (ℝ × ℝ))
    (start : ℝ × ℝ) (radius : Option ℝ) (title : String) :
    List Elem → WalkState Elem → Except PyError (WalkState Elem)
  | [], st => .ok st
  | loc :: rest, st =>
    match geocodeElem loc with
    | .error e => .error e
    | .ok coords =>
      if coords = ((0 : ℝ), (0 : ℝ)) then
        placeLocations geocodeElem start radius title rest st
      else
        match radius with
        | none => .error .typeError
        | some r =>
          if calculate_distance (start, coords) ≤ r then
            if loc ∈ st.visited then placeLocations geocodeElem start radius title rest st
            else
              placeLocations geocodeElem start radius title rest
                ⟨st.number + 1, loc :: st.visited, st.markers ++ [⟨coords, title⟩]⟩
          else placeLocations geocodeElem start radius title rest st

/-- The outer `for _, element in enumerate(locations.keys())` loop of
`generate_map`: before each film, `if number >= 10: break`; then the film's
locations are walked. -/
def walkFilms {Elem : Type} (geocodeElem : Elem → Except PyError (ℝ × ℝ))
    (start : ℝ × ℝ) (radius : Option ℝ) :
    List (String × List Elem) → WalkState Elem → Except PyError (WalkState Elem)
  | [], st => .ok st
  | (title, locs) :: rest, st =>
    if 10 ≤ st.number then .ok st
    else
      match placeLocations geocodeElem start radius title locs st with
      | .error e => .error e
      | .ok st' => walkFilms geocodeElem start radius rest st'

/-- In ranked mode the walk calls `get_coordinates` on a `[distance,
location]` list; `urllib.parse.quote` of a list raises `TypeError` before any
network access. -/
def geocodePair (_p : ℝ × String) : Except PyError (ℝ × ℝ) :=
  .error .typeError

/-- `generate_map start file year radius`: parse the file; with `radius=None`
replace the dictionary by `sort_by_distance`'s output, otherwise keep it (and
`float(radius)` is the identity on the model's reals); run the selection
walk from counter `0`, empty visited set and no markers; on success save the
map and return `1`.  The result is the marker list of the saved map together
with that return value; an error is an uncaught exception (no map saved). -/
def generate_map (env : String → GeoResponse) (start : ℝ × ℝ)
    (lines : List (Option String)) (year : Int) (radius : Option ℝ) :
    Except PyError (List Marker × Nat) :=
  let _ := year
  match get_locations lines with
  | .error e => .error e
  | .ok locations =>
    match radius with
    | none =>
      match sort_by_distance env locations start with
      | .error e => .error e
      | .ok sortedL =>
        match walkFilms geocodePair start none sortedL ⟨0, [], []⟩ with
        | .error e => .error e
        | .ok st => .ok (st.markers, 1)
    | some r =>
      match walkFilms (get_coordinates env) start (some r) locations ⟨0, [], []⟩ with
      | .error e => .error e
      | .ok st => .ok (st.markers, 1)

end

noncomputable section

open scoped Classical

/-- Reference point used by the concrete scenarios. -/
def start₀ : ℝ × ℝ := ((20 : ℝ), (30 : ℝ))

/-- Film title used by the one-film scenarios. -/
def filmF : String := "F"

/-- A data line `title TAB location`. -/
def lineOf (t loc : String) : String := t ++ tabStr ++ loc

/-- Eleven distinct raw location strings. -/
def locA : String := "a"

def locB : String := "b"

def locC : String := "c"

def locD : String := "d"

def locE : String := "e"

def locF : String := "f"

def locG : String := "g"

def locH : String := "h"

def locI : String := "i"

def locJ : String := "j"

def locK : String := "k"

/-- The eleven locations of the over-cap film. -/
def locs11 : List String :=
  [locA, locB, locC, locD, locE, locF, locG, locH, locI, locJ, locK]

/-- A geocoder for which every query resolves to the reference point
`start₀` (one JSON result with parseable `lat`/`lon`). -/
def envHome : String → GeoResponse := fun _ => .json [some start₀]

/-- A geocoder whose every lookup yields an empty result list, so
`get_coordinates` always returns the `[0, 0]` sentinel. -/
def envEmpty : String → GeoResponse := fun _ => .json []

/-- A geocoder whose every lookup suffers a network failure. -/
def envNet : String → GeoResponse := fun _ => .networkFailure

/-- A query string used by concrete lookups. -/
def addr₀ : String := "Lviv"

/-- Input file for the over-cap scenario: a 14-line header, then one film
with eleven locations. -/
def lines₁ : List (Option String) :=
  List.replicate 14 none ++
    [some (lineOf filmF locA), some (lineOf filmF locB), some (lineOf filmF locC),
      some (lineOf filmF locD), some (lineOf filmF locE), some (lineOf filmF locF),
      some (lineOf filmF locG), some (lineOf filmF locH), some (lineOf filmF locI),
      some (lineOf filmF locJ), some (lineOf filmF locK)]

/-- The marker placed for `filmF` at the reference point. -/
def markerF : Marker := ⟨start₀, filmF⟩

/-- Eleven distinct film titles. -/
def ttlA : String := "A"

def ttlB : String := "B"

def ttlC : String := "C"

def ttlD : String := "D"

def ttlE : String := "E"

def ttlF : String := "G1"

def ttlG : String := "G2"

def ttlH : String := "H"

def ttlI : String := "I"

def ttlJ : String := "J"

def ttlK : String := "K"

/-- Input file for the cap-boundary scenario: a 14-line header, then eleven
films with one distinct location each. -/
def lines₂ : List (Option String) :=
  List.replicate 14 none ++
    [some (lineOf ttlA locA), some (lineOf ttlB locB), some (lineOf ttlC locC),
      some (lineOf ttlD locD), some (lineOf ttlE locE), some (lineOf ttlF locF),
      some (lineOf ttlG locG), some (lineOf ttlH locH), some (lineOf ttlI locI),
      some (lineOf ttlJ locJ), some (lineOf ttlK locK)]

/-- The ten markers of the cap-boundary scenario: films `A` … `J` each
contribute one marker at the reference point; film `K` is cut off. -/
def markers₂ : List Marker :=
  [⟨start₀, ttlA⟩, ⟨start₀, ttlB⟩, ⟨start₀, ttlC⟩, ⟨start₀, ttlD⟩, ⟨start₀, ttlE⟩,
    ⟨start₀, ttlF⟩, ⟨start₀, ttlG⟩, ⟨start₀, ttlH⟩, ⟨start₀, ttlI⟩, ⟨start₀, ttlJ⟩]

/-- Input file whose only data line is a single field beginning with a
parenthesis: `info[-2]` raises `IndexError` in the source. -/
def lines₃ : List (Option String) :=
  List.replicate 14 none ++ [some lparenStr]

/-- Two film titles sharing one raw location string. -/
def ttlF1 : String := "F1"

def ttlF2 : String := "F2"

/-- The shared raw location string of the dedup scenario. -/
def locS : String := "s"

/-- Input file for the dedup scenario: two films, identical raw location
string. -/
def lines₉ : List (Option String) :=
  List.replicate 14 none ++ [some (lineOf ttlF1 locS), some (lineOf ttlF2 locS)]

/-- Parser-witness title. -/
def ttlT : String := "T"

/-- Parser-witness location with an annotation field after it. -/
def locCity : String := "Loc, City"

/-- A parenthetical annotation field. -/
def parenNote : String := "(studio)"

/-- Input file for the parser witness: one line whose last field is
parenthetical, and a second line accumulating onto the same title. -/
def lines₆ : List (Option String) :=
  List.replicate 14 none ++
    [some (ttlT ++ tabStr ++ locCity ++ tabStr ++ parenNote),
      some (lineOf ttlT locS)]

/-- Input file for the ranked-mode witness: one film, one location. -/
def lines₁₀ : List (Option String) :=
  List.replicate 14 none ++ [some (lineOf ttlT locA)]

/-- Input file for the all-sentinel witness: one film, one location. -/
def lines₈ : List (Option String) :=
  List.replicate 14 none ++ [some (lineOf ttlT locA)] ++ [some (lineOf ttlT locB)]

/-- Pair-list sample names for the ranked-order example. -/
def sA : String := "near50"

def sB : String := "near5"

def sC : String := "near200"

end

noncomputable section

open scoped Classical

/-- The pure coordinate function realised by `envHome`: every query resolves
to the reference point. -/
def gHome : String → ℝ × ℝ := fun _ => start₀

end

section

open scoped Classical

theorem calculate_distance_eq_spec (lat1 lon1 lat2 lon2 : ℝ) :
    calculate_distance ((lat1, lon1), (lat2, lon2)) =
      haversine_spec lat1 lon1 lat2 lon2 := by
  have ha : Real.sin (radians (lat2 - lat1) / 2) * Real.sin (radians (lat2 - lat1) / 2) +
      Real.cos (radians lat1) * Real.cos (radians lat2) *
        Real.sin (radians (lon2 - lon1) / 2) * Real.sin (radians (lon2 - lon1) / 2) =
      haversine_a lat1 lon1 lat2 lon2 := by
    simp only [haversine_a]
    ring
  simp only [calculate_distance, haversine_spec]
  rw [ha]
  ring

theorem calculate_distance_self (p : ℝ × ℝ) : calculate_distance (p, p) = 0 := by
  obtain ⟨lat, lon⟩ := p
  simp only [calculate_distance, sub_self]
  have h0 : radians 0 = 0 := by simp [radians]
  rw [h0]
  norm_num [atan2, Real.arctan_zero]

theorem calculate_distance_comm (p q : ℝ × ℝ) :
    calculate_distance (p, q) = calculate_distance (q, p) := by
  obtain ⟨a1, o1⟩ := p
  obtain ⟨a2, o2⟩ := q
  have h1 : radians (a1 - a2) / 2 = -(radians (a2 - a1) / 2) := by
    simp only [radians]
    ring
  have h2 : radians (o1 - o2) / 2 = -(radians (o2 - o1) / 2) := by
    simp only [radians]
    ring
  have hA : Real.sin (radians (a1 - a2) / 2) * Real.sin (radians (a1 - a2) / 2) +
      Real.cos (radians a2) * Real.cos (radians a1) *
        Real.sin (radians (o1 - o2) / 2) * Real.sin (radians (o1 - o2) / 2) =
      Real.sin (radians (a2 - a1) / 2) * Real.sin (radians (a2 - a1) / 2) +
      Real.cos (radians a1) * Real.cos (radians a2) *
        Real.sin (radians (o2 - o1) / 2) * Real.sin (radians (o2 - o1) / 2) := by
    rw [h1, h2, Real.sin_neg, Real.sin_neg]
    ring
  simp only [calculate_distance]
  rw [hA]

end

section

open scoped Classical

theorem calculate_distance_0_90 :
    |calculate_distance ((0, 0), (0, 90)) - 10007.5| < 1 / 10 := by
  have e1 : calculate_distance ((0, 0), (0, 90)) = 6371 * (Real.pi / 2) := by
    simp only [calculate_distance, sub_self, sub_zero]
    have h0 : radians 0 = 0 := by simp [radians]
    have h90 : radians 90 / 2 = Real.pi / 4 := by
      simp only [radians]
      ring
    rw [h0, h90]
    rw [Real.sin_pi_div_four]
    have h2 : Real.sqrt 2 * Real.sqrt 2 = 2 := Real.mul_self_sqrt (by norm_num)
    have harg : Real.sin (0 / 2) * Real.sin (0 / 2) +
        Real.cos 0 * Real.cos 0 * (Real.sqrt 2 / 2) * (Real.sqrt 2 / 2) = 1 / 2 := by
      rw [zero_div, Real.sin_zero, Real.cos_zero]
      linear_combination h2 / 4
    rw [harg]
    have hhalf : (1 : ℝ) - 1 / 2 = 1 / 2 := by norm_num
    rw [hhalf]
    have hpos : 0 < Real.sqrt (1 / 2) := Real.sqrt_pos.mpr (by norm_num)
    rw [atan2, if_pos hpos, div_self (ne_of_gt hpos), Real.arctan_one]
    ring
  rw [e1, abs_lt]
  constructor <;> nlinarith [Real.pi_gt_d6, Real.pi_lt_d6]

theorem calculate_distance_0_180 :
    |calculate_distance ((0, 0), (0, 180)) - 20015| < 1 / 10 := by
  have e1 : calculate_distance ((0, 0), (0, 180)) = 6371 * Real.pi := by
    simp only [calculate_distance, sub_self, sub_zero]
    have h0 : radians 0 = 0 := by simp [radians]
    have h180 : radians 180 / 2 = Real.pi / 2 := by
      simp only [radians]
      ring
    rw [h0, h180, Real.sin_pi_div_two]
    have harg : Real.sin (0 / 2) * Real.sin (0 / 2) + Real.cos 0 * Real.cos 0 * 1 * 1 =
        1 := by
      rw [zero_div, Real.sin_zero, Real.cos_zero]
      ring
    rw [harg]
    have hone : (1 : ℝ) - 1 = 0 := by norm_num
    rw [hone, Real.sqrt_zero, Real.sqrt_one]
    have hval : atan2 1 0 = Real.pi / 2 := by
      rw [atan2]
      norm_num
    rw [hval]
    ring
  rw [e1, abs_lt]
  constructor <;> nlinarith [Real.pi_gt_d6, Real.pi_lt_d6]

end

section

open scoped Classical

theorem insertPair_perm (x : ℝ × String) (l : List (ℝ × String)) :
    List.Perm (insertPair x l) (x :: l) := by
  induction l with
  | nil => simp [insertPair]
  | cons y ys ih =>
    rw [insertPair]
    split_ifs with h
    · exact List.Perm.refl _
    · exact (ih.cons y).trans (List.Perm.swap x y ys)

theorem sortPairs_perm (l : List (ℝ × String)) : List.Perm (sortPairs l) l := by
  induction l with
  | nil => exact List.Perm.nil
  | cons x xs ih =>
    rw [sortPairs]
    exact (insertPair_perm x (sortPairs xs)).trans (ih.cons x)

theorem insertPair_pairwise (x : ℝ × String) (l : List (ℝ × String))
    (h : l.Pairwise (fun a b => a.1 ≤ b.1)) :
    (insertPair x l).Pairwise (fun a b => a.1 ≤ b.1) := by
  induction l with
  | nil => simp [insertPair]
  | cons y ys ih =>
    rw [insertPair]
    cases h with
    | cons hy hys =>
      split_ifs with hle
      · exact List.Pairwise.cons
          (by
            intro z hz
            rcases List.mem_cons.mp hz with rfl | hz'
            · exact hle
            · exact le_trans hle (hy z hz'))
          (List.Pairwise.cons hy hys)
      · exact List.Pairwise.cons
          (by
            intro z hz
            rcases List.mem_cons.mp ((insertPair_perm x ys).subset hz) with rfl | hz'
            · exact le_of_lt (lt_of_not_le hle)
            · exact hy z hz')
          (ih hys)

theorem sortPairs_pairwise (l : List (ℝ × String)) :
    (sortPairs l).Pairwise (fun a b => a.1 ≤ b.1) := by
  induction l with
  | nil => simp [sortPairs]
  | cons x xs ih =>
    rw [sortPairs]
    exact insertPair_pairwise x (sortPairs xs) ih

theorem insertPair_filter_pos (x : ℝ × String) (k : ℝ) (hx : x.1 = k)
    (l : List (ℝ × String)) :
    (insertPair x l).filter (fun p => decide (p.1 = k)) =
      x :: l.filter (fun p => decide (p.1 = k)) := by
  induction l with
  | nil => simp [insertPair, hx]
  | cons y ys ih =>
    rw [insertPair]
    split_ifs with hle
    · simp [List.filter_cons, hx]
    · have hy : y.1 ≠ k := by
        intro h
        exact hle (by rw [hx, ← h])
      simp [List.filter_cons, hy, ih]

theorem insertPair_filter_neg (x : ℝ × String) (k : ℝ) (hx : x.1 ≠ k)
    (l : List (ℝ × String)) :
    (insertPair x l).filter (fun p => decide (p.1 = k)) =
      l.filter (fun p => decide (p.1 = k)) := by
  induction l with
  | nil => simp [insertPair, hx]
  | cons y ys ih =>
    rw [insertPair]
    split_ifs with hle
    · simp [List.filter_cons, hx]
    · simp [List.filter_cons, ih]

theorem sortPairs_filter (l : List (ℝ × String)) (k : ℝ) :
    (sortPairs l).filter (fun p => decide (p.1 = k)) =
      l.filter (fun p => decide (p.1 = k)) := by
  induction l with
  | nil => rfl
  | cons x xs ih =>
    rw [sortPairs]
    by_cases hx : x.1 = k
    · rw [insertPair_filter_pos x k hx (sortPairs xs), ih]
      simp [List.filter_cons, hx]
    · rw [insertPair_filter_neg x k hx (sortPairs xs), ih]
      simp [List.filter_cons, hx]

theorem sortPairs_example :
    sortPairs [((50 : ℝ), sA), (5, sB), (200, sC)] =
      [((5 : ℝ), sB), (50, sA), (200, sC)] := by
  norm_num [sortPairs, insertPair]

end

theorem parseLine_ok (line : String) (h : 2 ≤ (pySplit line tabChar).length) :
    parseLine line =
      .ok ((pySplit line tabChar).headD emptyStr, specChosenField (pySplit line tabChar)) := by
  rcases hinfo : pySplit line tabChar with _ | ⟨a, _ | ⟨b, t⟩⟩
  · rw [hinfo] at h
    simp at h
  · rw [hinfo] at h
    simp at h
  · rcases hrev : (a :: b :: t).reverse with _ | ⟨x, _ | ⟨y, z⟩⟩
    · have := congrArg List.length hrev
      simp at this
    · have := congrArg List.length hrev
      simp at this
    · simp only [parseLine, hinfo, hrev, specChosenField, List.headD_cons, List.tail_cons]
      split_ifs with hx
      · rfl
      · rfl

theorem buildLocations_spec (L : List (Option String)) :
    ∀ acc, (∀ os ∈ L, lineOk os) →
      buildLocations L acc = .ok (L.foldl specStep acc) := by
  induction L with
  | nil => intro acc _; rfl
  | cons os rest ih =>
    intro acc h
    have hrest : ∀ os' ∈ rest, lineOk os' := fun os' hm => h os' (List.mem_cons_of_mem _ hm)
    cases os with
    | none =>
      simp only [buildLocations, List.foldl_cons, specStep]
      exact ih acc hrest
    | some line =>
      have hl : 2 ≤ (pySplit line tabChar).length :=
        h (some line) (List.mem_cons_self _ _) line rfl
      simp only [buildLocations, parseLine_ok line hl, List.foldl_cons, specStep]
      exact ih _ hrest

section

open scoped Classical

theorem collectPairs_ok (env : String → GeoResponse) (g : String → ℝ × ℝ)
    (start : ℝ × ℝ) :
    ∀ locs : List String, (∀ loc ∈ locs, get_coordinates env loc = .ok (g loc)) →
      ∀ acc, collectPairs env start locs acc =
        .ok (acc ++ (locs.filter fun loc => decide (g loc ≠ ((0 : ℝ), (0 : ℝ)))).map
          fun loc => (calculate_distance (start, g loc), loc)) := by
  intro locs
  induction locs with
  | nil => intro _ acc; simp [collectPairs]
  | cons loc rest ih =>
    intro hg acc
    have hml : get_coordinates env loc = .ok (g loc) := hg loc (List.mem_cons_self _ _)
    have hrest : ∀ l ∈ rest, get_coordinates env l = .ok (g l) := fun l hm =>
      hg l (List.mem_cons_of_mem _ hm)
    simp only [collectPairs, hml]
    by_cases h0 : g loc = ((0 : ℝ), (0 : ℝ))
    · have h0' : g loc = 0 := h0.trans rfl
      rw [if_pos h0, ih hrest acc]
      simp [List.filter_cons, h0, h0']
    · have h0' : ¬g loc = 0 := fun hz => h0 (hz.trans rfl)
      rw [if_neg h0, ih hrest _]
      simp [List.filter_cons, h0, h0']

theorem sort_by_distance_ok (env : String → GeoResponse) (g : String → ℝ × ℝ)
    (start : ℝ × ℝ) :
    ∀ films : List (String × List String),
      (∀ f ∈ films, ∀ loc ∈ f.2, get_coordinates env loc = .ok (g loc)) →
      sort_by_distance env films start =
        .ok (films.map fun fl =>
          (fl.1, sortPairs ((fl.2.filter fun loc => decide (g loc ≠ ((0 : ℝ), (0 : ℝ)))).map
            fun loc => (calculate_distance (start, g loc), loc)))) := by
  intro films
  induction films with
  | nil => intro _; rfl
  | cons f rest ih =>
    intro h
    obtain ⟨film, locs⟩ := f
    have h1 : ∀ loc ∈ locs, get_coordinates env loc = .ok (g loc) :=
      h (film, locs) (List.mem_cons_self _ _)
    have h2 : ∀ f' ∈ rest, ∀ loc ∈ f'.2, get_coordinates env loc = .ok (g loc) :=
      fun f' hm => h f' (List.mem_cons_of_mem _ hm)
    simp only [sort_by_distance, collectPairs_ok env g start locs h1 [], List.nil_append,
      ih h2, List.map_cons]

theorem walkFilms_stop {Elem : Type} (geoE : Elem → Except PyError (ℝ × ℝ))
    (start : ℝ × ℝ) (radius : Option ℝ) (films : List (String × List Elem))
    (st : WalkState Elem) (h : 10 ≤ st.number) :
    walkFilms geoE start radius films st = .ok st := by
  cases films with
  | nil => rfl
  | cons f rest =>
    obtain ⟨t, locs⟩ := f
    simp only [walkFilms]
    rw [if_pos h]

theorem placeLocations_cons_sentinel {Elem : Type} (geoE : Elem → Except PyError (ℝ × ℝ))
    (start : ℝ × ℝ) (radius : Option ℝ) (title : String) (loc : Elem)
    (rest : List Elem) (st : WalkState Elem)
    (h : geoE loc = .ok ((0 : ℝ), (0 : ℝ))) :
    placeLocations geoE start radius title (loc :: rest) st =
      placeLocations geoE start radius title rest st := by
  simp [placeLocations, h]

theorem placeLocations_cons_place {Elem : Type} (geoE : Elem → Except PyError (ℝ × ℝ))
    (start : ℝ × ℝ) (r : ℝ) (title : String) (loc : Elem) (rest : List Elem)
    (st : WalkState Elem) (c : ℝ × ℝ) (h : geoE loc = .ok c)
    (h0 : c ≠ ((0 : ℝ), (0 : ℝ))) (hd : calculate_distance (start, c) ≤ r)
    (hv : loc ∉ st.visited) :
    placeLocations geoE start (some r) title (loc :: rest) st =
      placeLocations geoE start (some r) title rest
        ⟨st.number + 1, loc :: st.visited, st.markers ++ [⟨c, title⟩]⟩ := by
  simp only [placeLocations, h]
  rw [if_neg h0, if_pos hd, if_neg hv]

theorem placeLocations_cons_dup {Elem : Type} (geoE : Elem → Except PyError (ℝ × ℝ))
    (start : ℝ × ℝ) (r : ℝ) (title : String) (loc : Elem) (rest : List Elem)
    (st : WalkState Elem) (c : ℝ × ℝ) (h : geoE loc = .ok c)
    (h0 : c ≠ ((0 : ℝ), (0 : ℝ))) (hd : calculate_distance (start, c) ≤ r)
    (hv : loc ∈ st.visited) :
    placeLocations geoE start (some r) title (loc :: rest) st =
      placeLocations geoE start (some r) title rest st := by
  simp only [placeLocations, h]
  rw [if_neg h0, if_pos hd, if_pos hv]

theorem walkFilms_cons {Elem : Type} (geoE : Elem → Except PyError (ℝ × ℝ))
    (start : ℝ × ℝ) (radius : Option ℝ) (title : String) (locs : List Elem)
    (rest : List (String × List Elem)) (st st' : WalkState Elem)
    (h : st.number < 10)
    (hp : placeLocations geoE start radius title locs st = .ok st') :
    walkFilms geoE start radius ((title, locs) :: rest) st =
      walkFilms geoE start radius rest st' := by
  simp only [walkFilms]
  rw [if_neg (by omega : ¬ 10 ≤ st.number), hp]

end

section

open scoped Classical

theorem placeLocations_nil {Elem : Type} (geoE : Elem → Except PyError (ℝ × ℝ))
    (start : ℝ × ℝ) (radius : Option ℝ) (title : String) (st : WalkState Elem) :
    placeLocations geoE start radius title [] st = .ok st := rfl

theorem placeLocations_all_qualify {Elem : Type} (geoE : Elem → Except PyError (ℝ × ℝ))
    (start c : ℝ × ℝ) (r : ℝ) (title : String) (h0 : c ≠ ((0 : ℝ), (0 : ℝ)))
    (hd : calculate_distance (start, c) ≤ r) :
    ∀ (locs : List Elem) (st : WalkState Elem),
      (∀ loc ∈ locs, geoE loc = .ok c) → locs.Nodup →
      (∀ loc ∈ locs, loc ∉ st.visited) →
      placeLocations geoE start (some r) title locs st =
        .ok ⟨st.number + locs.length, locs.reverse ++ st.visited,
          st.markers ++ locs.map fun _ => ⟨c, title⟩⟩ := by
  intro locs
  induction locs with
  | nil =>
    intro st _ _ _
    simp [placeLocations_nil]
  | cons loc rest ih =>
    intro st hg hnd hv
    rw [placeLocations_cons_place geoE start r title loc rest st c
      (hg loc (List.mem_cons_self _ _)) h0 hd (hv loc (List.mem_cons_self _ _))]
    have heq := ih
      (⟨st.number + 1, loc :: st.visited, st.markers ++ [(⟨c, title⟩ : Marker)]⟩ :
        WalkState Elem)
      (fun l hm => hg l (List.mem_cons_of_mem _ hm))
      (List.Nodup.of_cons hnd)
      (by
        intro l hm hmem
        rcases List.mem_cons.mp hmem with rfl | hmem'
        · exact (List.nodup_cons.mp hnd).1 hm
        · exact hv l (List.mem_cons_of_mem _ hm) hmem')
    rw [heq]
    simp only [List.length_cons, List.reverse_cons, List.map_cons, List.append_assoc,
      List.singleton_append, List.cons_append, List.nil_append, Except.ok.injEq,
      WalkState.mk.injEq, and_true, true_and]
    omega

theorem walkFilms_step_single {Elem : Type} (geoE : Elem → Except PyError (ℝ × ℝ))
    (start : ℝ × ℝ) (r : ℝ) (title : String) (s : Elem)
    (rest : List (String × List Elem)) (st : WalkState Elem) (c : ℝ × ℝ)
    (hn : st.number < 10) (hg : geoE s = .ok c) (h0 : c ≠ ((0 : ℝ), (0 : ℝ)))
    (hd : calculate_distance (start, c) ≤ r) (hv : s ∉ st.visited) :
    walkFilms geoE start (some r) ((title, [s]) :: rest) st =
      walkFilms geoE start (some r) rest
        ⟨st.number + 1, s :: st.visited, st.markers ++ [⟨c, title⟩]⟩ := by
  refine walkFilms_cons geoE start (some r) title [s] rest st _ hn ?_
  rw [placeLocations_cons_place geoE start r title s [] st c hg h0 hd hv]
  exact placeLocations_nil geoE start (some r) title _

theorem walkFilms_ranked_empty (start : ℝ × ℝ) :
    ∀ (films : List (String × List (ℝ × String))) (st : WalkState (ℝ × String)),
      (∀ f ∈ films, f.2 = []) →
      walkFilms geocodePair start none films st = .ok st := by
  intro films
  induction films with
  | nil => intro st _; rfl
  | cons f rest ih =>
    intro st h
    obtain ⟨t, l⟩ := f
    have hl : l = [] := h (t, l) (List.mem_cons_self _ _)
    subst hl
    simp only [walkFilms]
    split_ifs with hn
    · rfl
    · rw [placeLocations_nil]
      exact ih st fun f' hm => h f' (List.mem_cons_of_mem _ hm)

theorem walkFilms_ranked_err (start : ℝ × ℝ) :
    ∀ (films : List (String × List (ℝ × String))) (st : WalkState (ℝ × String)),
      st.number < 10 → (∃ f ∈ films, f.2 ≠ []) →
      walkFilms geocodePair start none films st = .error .typeError := by
  intro films
  induction films with
  | nil =>
    intro st _ hex
    obtain ⟨f, hm, _⟩ := hex
    exact absurd hm (List.not_mem_nil f)
  | cons f rest ih =>
    intro st hn hex
    obtain ⟨t, l⟩ := f
    cases l with
    | nil =>
      simp only [walkFilms]
      rw [if_neg (by omega : ¬ 10 ≤ st.number), placeLocations_nil]
      refine ih st hn ?_
      obtain ⟨f', hm, hne⟩ := hex
      rcases List.mem_cons.mp hm with rfl | hm'
      · exact absurd rfl hne
      · exact ⟨f', hm', hne⟩
    | cons x xs =>
      simp only [walkFilms]
      rw [if_neg (by omega : ¬ 10 ≤ st.number)]
      simp [placeLocations, geocodePair]

end

section

open scoped Classical

theorem placeLocations_markers {Elem : Type} (geoE : Elem → Except PyError (ℝ × ℝ))
    (start : ℝ × ℝ) (radius : Option ℝ) (title : String) :
    ∀ (locs : List Elem) (st st' : WalkState Elem),
      placeLocations geoE start radius title locs st = .ok st' →
      (∀ m ∈ st.markers, m.coordinates ≠ ((0 : ℝ), (0 : ℝ))) →
      ∀ m ∈ st'.markers, m.coordinates ≠ ((0 : ℝ), (0 : ℝ)) := by
  intro locs
  induction locs with
  | nil =>
    intro st st' h hm
    rw [placeLocations_nil] at h
    simp only [Except.ok.injEq] at h
    subst h
    exact hm
  | cons loc rest ih =>
    intro st st' h hm
    cases hge : geoE loc with
    | error e =>
      simp only [placeLocations, hge] at h
      exact Except.noConfusion h
    | ok c =>
      simp only [placeLocations, hge] at h
      by_cases h0 : c = ((0 : ℝ), (0 : ℝ))
      · rw [if_pos h0] at h
        exact ih st st' h hm
      · rw [if_neg h0] at h
        cases radius with
        | none => simp at h
        | some r =>
          dsimp only at h
          by_cases hd : calculate_distance (start, c) ≤ r
          · rw [if_pos hd] at h
            by_cases hv : loc ∈ st.visited
            · rw [if_pos hv] at h
              exact ih st st' h hm
            · rw [if_neg hv] at h
              refine ih _ st' h ?_
              intro m hm'
              rcases List.mem_append.mp hm' with hmo | hmn
              · exact hm m hmo
              · have : m = ⟨c, title⟩ := List.mem_singleton.mp hmn
                rw [this]
                exact h0
          · rw [if_neg hd] at h
            exact ih st st' h hm

theorem walkFilms_markers {Elem : Type} (geoE : Elem → Except PyError (ℝ × ℝ))
    (start : ℝ × ℝ) (radius : Option ℝ) :
    ∀ (films : List (String × List Elem)) (st st' : WalkState Elem),
      walkFilms geoE start radius films st = .ok st' →
      (∀ m ∈ st.markers, m.coordinates ≠ ((0 : ℝ), (0 : ℝ))) →
      ∀ m ∈ st'.markers, m.coordinates ≠ ((0 : ℝ), (0 : ℝ)) := by
  intro films
  induction films with
  | nil =>
    intro st st' h hm
    simp only [walkFilms, Except.ok.injEq] at h
    subst h
    exact hm
  | cons f rest ih =>
    intro st st' h hm
    obtain ⟨t, locs⟩ := f
    simp only [walkFilms] at h
    split_ifs at h with hn
    · simp only [Except.ok.injEq] at h
      subst h
      exact hm
    · cases hp : placeLocations geoE start radius t locs st with
      | error e => rw [hp] at h; simp at h
      | ok st'' =>
        rw [hp] at h
        exact ih st'' st' h (placeLocations_markers geoE start radius t locs st st'' hp hm)

theorem placeLocations_all_sentinel {Elem : Type} (geoE : Elem → Except PyError (ℝ × ℝ))
    (start : ℝ × ℝ) (radius : Option ℝ) (title : String) :
    ∀ (locs : List Elem) (st : WalkState Elem),
      (∀ loc ∈ locs, geoE loc = .ok ((0 : ℝ), (0 : ℝ))) →
      placeLocations geoE start radius title locs st = .ok st := by
  intro locs
  induction locs with
  | nil => intro st _; exact placeLocations_nil geoE start radius title st
  | cons loc rest ih =>
    intro st h
    rw [placeLocations_cons_sentinel geoE start radius title loc rest st
      (h loc (List.mem_cons_self _ _))]
    exact ih st fun l hm => h l (List.mem_cons_of_mem _ hm)

theorem placeLocations_dedup {Elem : Type} (geoE : Elem → Except PyError (ℝ × ℝ))
    (start : ℝ × ℝ) (radius : Option ℝ) (title : String) :
    ∀ (locs : List Elem) (st st' : WalkState Elem),
      placeLocations geoE start radius title locs st = .ok st' →
      st.visited.Nodup →
      st'.visited.Nodup ∧
        st'.markers.length + st.visited.length =
          st.markers.length + st'.visited.length := by
  intro locs
  induction locs with
  | nil =>
    intro st st' h hnd
    rw [placeLocations_nil] at h
    simp only [Except.ok.injEq] at h
    subst h
    exact ⟨hnd, rfl⟩
  | cons loc rest ih =>
    intro st st' h hnd
    cases hge : geoE loc with
    | error e =>
      simp only [placeLocations, hge] at h
      exact Except.noConfusion h
    | ok c =>
      simp only [placeLocations, hge] at h
      by_cases h0 : c = ((0 : ℝ), (0 : ℝ))
      · rw [if_pos h0] at h
        exact ih st st' h hnd
      · rw [if_neg h0] at h
        cases radius with
        | none => simp at h
        | some r =>
          dsimp only at h
          by_cases hd : calculate_distance (start, c) ≤ r
          · rw [if_pos hd] at h
            by_cases hv : loc ∈ st.visited
            · rw [if_pos hv] at h
              exact ih st st' h hnd
            · rw [if_neg hv] at h
              obtain ⟨h1, h2⟩ := ih _ st' h (List.nodup_cons.mpr ⟨hv, hnd⟩)
              refine ⟨h1, ?_⟩
              simp only [List.length_cons, List.length_append,
                List.length_singleton, List.length_nil] at h2
              omega
          · rw [if_neg hd] at h
            exact ih st st' h hnd

theorem walkFilms_dedup {Elem : Type} (geoE : Elem → Except PyError (ℝ × ℝ))
    (start : ℝ × ℝ) (radius : Option ℝ) :
    ∀ (films : List (String × List Elem)) (st st' : WalkState Elem),
      walkFilms geoE start radius films st = .ok st' →
      st.visited.Nodup →
      st'.visited.Nodup ∧
        st'.markers.length + st.visited.length =
          st.markers.length + st'.visited.length := by
  intro films
  induction films with
  | nil =>
    intro st st' h hnd
    simp only [walkFilms, Except.ok.injEq] at h
    subst h
    exact ⟨hnd, rfl⟩
  | cons f rest ih =>
    intro st st' h hnd
    obtain ⟨t, locs⟩ := f
    simp only [walkFilms] at h
    split_ifs at h with hn
    · simp only [Except.ok.injEq] at h
      subst h
      exact ⟨hnd, rfl⟩
    · cases hp : placeLocations geoE start radius t locs st with
      | error e => rw [hp] at h; simp at h
      | ok st'' =>
        rw [hp] at h
        obtain ⟨ha, hb⟩ := placeLocations_dedup geoE start radius t locs st st'' hp hnd
        obtain ⟨hc, hd⟩ := ih st'' st' h ha
        exact ⟨hc, by omega⟩

end

section

open scoped Classical

theorem geoHome_ok (s : String) : get_coordinates envHome s = .ok start₀ := rfl

theorem start₀_ne : start₀ ≠ ((0 : ℝ), (0 : ℝ)) := by
  norm_num [start₀, Prod.ext_iff]

theorem start₀_close : calculate_distance (start₀, start₀) ≤ 2000 := by
  rw [calculate_distance_self]
  norm_num

theorem run_lines₁ :
    generate_map envHome start₀ lines₁ 2018 (some 2000) =
      .ok (List.replicate 11 markerF, 1) := by
  have h1 : get_locations lines₁ = .ok [(filmF, locs11)] := rfl
  have hp : placeLocations (get_coordinates envHome) start₀ (some 2000) filmF locs11
      (⟨0, [], []⟩ : WalkState String) =
      .ok ⟨11, locs11.reverse, locs11.map fun _ => ⟨start₀, filmF⟩⟩ :=
    placeLocations_all_qualify (get_coordinates envHome) start₀ start₀ 2000 filmF
      start₀_ne start₀_close locs11 ⟨0, [], []⟩ (fun loc _ => geoHome_ok loc)
      (by decide) (fun loc _ h => absurd h (List.not_mem_nil loc))
  have hw : walkFilms (get_coordinates envHome) start₀ (some 2000) [(filmF, locs11)]
      (⟨0, [], []⟩ : WalkState String) =
      .ok ⟨11, locs11.reverse, locs11.map fun _ => ⟨start₀, filmF⟩⟩ := by
    rw [walkFilms_cons (get_coordinates envHome) start₀ (some 2000) filmF locs11 []
      ⟨0, [], []⟩ _ (by decide) hp]
    rfl
  simp only [generate_map, h1, hw]
  rfl

theorem run_lines₈ :
    generate_map envEmpty start₀ lines₈ 2018 (some 2000) = .ok ([], 1) := by
  have h1 : get_locations lines₈ = .ok [(ttlT, [locA, locB])] := rfl
  have hp : placeLocations (get_coordinates envEmpty) start₀ (some 2000) ttlT
      [locA, locB] (⟨0, [], []⟩ : WalkState String) = .ok ⟨0, [], []⟩ :=
    placeLocations_all_sentinel (get_coordinates envEmpty) start₀ (some 2000) ttlT
      [locA, locB] ⟨0, [], []⟩ (fun loc _ => rfl)
  have hw : walkFilms (get_coordinates envEmpty) start₀ (some 2000)
      [(ttlT, [locA, locB])] (⟨0, [], []⟩ : WalkState String) = .ok ⟨0, [], []⟩ := by
    rw [walkFilms_cons (get_coordinates envEmpty) start₀ (some 2000) ttlT [locA, locB]
      [] ⟨0, [], []⟩ _ (by decide) hp]
    rfl
  simp only [generate_map, h1, hw]

theorem walk_lines₉ :
    walkFilms (get_coordinates envHome) start₀ (some 2000)
      [(ttlF1, [locS]), (ttlF2, [locS])] (⟨0, [], []⟩ : WalkState String) =
      .ok ⟨1, [locS], [⟨start₀, ttlF1⟩]⟩ := by
  have hp1 : placeLocations (get_coordinates envHome) start₀ (some 2000) ttlF1 [locS]
      (⟨0, [], []⟩ : WalkState String) = .ok ⟨1, [locS], [⟨start₀, ttlF1⟩]⟩ := by
    rw [placeLocations_cons_place (get_coordinates envHome) start₀ 2000 ttlF1 locS []
      ⟨0, [], []⟩ start₀ (geoHome_ok locS) start₀_ne start₀_close (by decide)]
    rfl
  have hp2 : placeLocations (get_coordinates envHome) start₀ (some 2000) ttlF2 [locS]
      (⟨1, [locS], [⟨start₀, ttlF1⟩]⟩ : WalkState String) =
      .ok ⟨1, [locS], [⟨start₀, ttlF1⟩]⟩ := by
    rw [placeLocations_cons_dup (get_coordinates envHome) start₀ 2000 ttlF2 locS []
      ⟨1, [locS], [⟨start₀, ttlF1⟩]⟩ start₀ (geoHome_ok locS) start₀_ne start₀_close
      (by decide)]
    rfl
  rw [walkFilms_cons (get_coordinates envHome) start₀ (some 2000) ttlF1 [locS] _
    ⟨0, [], []⟩ _ (by decide) hp1]
  rw [walkFilms_cons (get_coordinates envHome) start₀ (some 2000) ttlF2 [locS] []
    ⟨1, [locS], [⟨start₀, ttlF1⟩]⟩ _ (by decide) hp2]
  rfl

theorem run_lines₉ :
    generate_map envHome start₀ lines₉ 2018 (some 2000) =
      .ok ([⟨start₀, ttlF1⟩], 1) := by
  have h1 : get_locations lines₉ = .ok [(ttlF1, [locS]), (ttlF2, [locS])] := rfl
  simp only [generate_map, h1, walk_lines₉]

end

section

open scoped Classical

theorem run_lines₂ :
    generate_map envHome start₀ lines₂ 2018 (some 2000) = .ok (markers₂, 1) := by
  have h1 : get_locations lines₂ = .ok
      [(ttlA, [locA]), (ttlB, [locB]), (ttlC, [locC]), (ttlD, [locD]), (ttlE, [locE]),
        (ttlF, [locF]), (ttlG, [locG]), (ttlH, [locH]), (ttlI, [locI]), (ttlJ, [locJ]),
        (ttlK, [locK])] := rfl
  have s1 : walkFilms (get_coordinates envHome) start₀ (some 2000)
      [(ttlA, [locA]), (ttlB, [locB]), (ttlC, [locC]), (ttlD, [locD]), (ttlE, [locE]), (ttlF, [locF]), (ttlG, [locG]), (ttlH, [locH]), (ttlI, [locI]), (ttlJ, [locJ]), (ttlK, [locK])]
      (⟨0, [], []⟩ : WalkState String) =
      walkFilms (get_coordinates envHome) start₀ (some 2000)
      [(ttlB, [locB]), (ttlC, [locC]), (ttlD, [locD]), (ttlE, [locE]), (ttlF, [locF]), (ttlG, [locG]), (ttlH, [locH]), (ttlI, [locI]), (ttlJ, [locJ]), (ttlK, [locK])]
      (⟨1, [locA], [⟨start₀, ttlA⟩]⟩ : WalkState String) :=
    walkFilms_step_single (get_coordinates envHome) start₀ 2000 ttlA locA
      [(ttlB, [locB]), (ttlC, [locC]), (ttlD, [locD]), (ttlE, [locE]), (ttlF, [locF]), (ttlG, [locG]), (ttlH, [locH]), (ttlI, [locI]), (ttlJ, [locJ]), (ttlK, [locK])]
      (⟨0, [], []⟩ : WalkState String) start₀
      (by decide) (geoHome_ok locA) start₀_ne start₀_close (by decide)
  have s2 : walkFilms (get_coordinates envHome) start₀ (some 2000)
      [(ttlB, [locB]), (ttlC, [locC]), (ttlD, [locD]), (ttlE, [locE]), (ttlF, [locF]), (ttlG, [locG]), (ttlH, [locH]), (ttlI, [locI]), (ttlJ, [locJ]), (ttlK, [locK])]
      (⟨1, [locA], [⟨start₀, ttlA⟩]⟩ : WalkState String) =
      walkFilms (get_coordinates envHome) start₀ (some 2000)
      [(ttlC, [locC]), (ttlD, [locD]), (ttlE, [locE]), (ttlF, [locF]), (ttlG, [locG]), (ttlH, [locH]), (ttlI, [locI]), (ttlJ, [locJ]), (ttlK, [locK])]
      (⟨2, [locB, locA], [⟨start₀, ttlA⟩, ⟨start₀, ttlB⟩]⟩ : WalkState String) :=
    walkFilms_step_single (get_coordinates envHome) start₀ 2000 ttlB locB
      [(ttlC, [locC]), (ttlD, [locD]), (ttlE, [locE]), (ttlF, [locF]), (ttlG, [locG]), (ttlH, [locH]), (ttlI, [locI]), (ttlJ, [locJ]), (ttlK, [locK])]
      (⟨1, [locA], [⟨start₀, ttlA⟩]⟩ : WalkState String) start₀
      (by decide) (geoHome_ok locB) start₀_ne start₀_close (by decide)
  have s3 : walkFilms (get_coordinates envHome) start₀ (some 2000)
      [(ttlC, [locC]), (ttlD, [locD]), (ttlE, [locE]), (ttlF, [locF]), (ttlG, [locG]), (ttlH, [locH]), (ttlI, [locI]), (ttlJ, [locJ]), (ttlK, [locK])]
      (⟨2, [locB, locA], [⟨start₀, ttlA⟩, ⟨start₀, ttlB⟩]⟩ : WalkState String) =
      walkFilms (get_coordinates envHome) start₀ (some 2000)
      [(ttlD, [locD]), (ttlE, [locE]), (ttlF, [locF]), (ttlG, [locG]), (ttlH, [locH]), (ttlI, [locI]), (ttlJ, [locJ]), (ttlK, [locK])]
      (⟨3, [locC, locB, locA], [⟨start₀, ttlA⟩, ⟨start₀, ttlB⟩, ⟨start₀, ttlC⟩]⟩ : WalkState String) :=
    walkFilms_step_single (get_coordinates envHome) start₀ 2000 ttlC locC
      [(ttlD, [locD]), (ttlE, [locE]), (ttlF, [locF]), (ttlG, [locG]), (ttlH, [locH]), (ttlI, [locI]), (ttlJ, [locJ]), (ttlK, [locK])]
      (⟨2, [locB, locA], [⟨start₀, ttlA⟩, ⟨start₀, ttlB⟩]⟩ : WalkState String) start₀
      (by decide) (geoHome_ok locC) start₀_ne start₀_close (by decide)
  have s4 : walkFilms (get_coordinates envHome) start₀ (some 2000)
      [(ttlD, [locD]), (ttlE, [locE]), (ttlF, [locF]), (ttlG, [locG]), (ttlH, [locH]), (ttlI, [locI]), (ttlJ, [locJ]), (ttlK, [locK])]
      (⟨3, [locC, locB, locA], [⟨start₀, ttlA⟩, ⟨start₀, ttlB⟩, ⟨start₀, ttlC⟩]⟩ : WalkState String) =
      walkFilms (get_coordinates envHome) start₀ (some 2000)
      [(ttlE, [locE]), (ttlF, [locF]), (ttlG, [locG]), (ttlH, [locH]), (ttlI, [locI]), (ttlJ, [locJ]), (ttlK, [locK])]
      (⟨4, [locD, locC, locB, locA], [⟨start₀, ttlA⟩, ⟨start₀, ttlB⟩, ⟨start₀, ttlC⟩, ⟨start₀, ttlD⟩]⟩ : WalkState String) :=
    walkFilms_step_single (get_coordinates envHome) start₀ 2000 ttlD locD
      [(ttlE, [locE]), (ttlF, [locF]), (ttlG, [locG]), (ttlH, [locH]), (ttlI, [locI]), (ttlJ, [locJ]), (ttlK, [locK])]
      (⟨3, [locC, locB, locA], [⟨start₀, ttlA⟩, ⟨start₀, ttlB⟩, ⟨start₀, ttlC⟩]⟩ : WalkState String) start₀
      (by decide) (geoHome_ok locD) start₀_ne start₀_close (by decide)
  have s5 : walkFilms (get_coordinates envHome) start₀ (some 2000)
      [(ttlE, [locE]), (ttlF, [locF]), (ttlG, [locG]), (ttlH, [locH]), (ttlI, [locI]), (ttlJ, [locJ]), (ttlK, [locK])]
      (⟨4, [locD, locC, locB, locA], [⟨start₀, ttlA⟩, ⟨start₀, ttlB⟩, ⟨start₀, ttlC⟩, ⟨start₀, ttlD⟩]⟩ : WalkState String) =
      walkFilms (get_coordinates envHome) start₀ (some 2000)
      [(ttlF, [locF]), (ttlG, [locG]), (ttlH, [locH]), (ttlI, [locI]), (ttlJ, [locJ]), (ttlK, [locK])]
      (⟨5, [locE, locD, locC, locB, locA], [⟨start₀, ttlA⟩, ⟨start₀, ttlB⟩, ⟨start₀, ttlC⟩, ⟨start₀, ttlD⟩, ⟨start₀, ttlE⟩]⟩ : WalkState String) :=
    walkFilms_step_single (get_coordinates envHome) start₀ 2000 ttlE locE
      [(ttlF, [locF]), (ttlG, [locG]), (ttlH, [locH]), (ttlI, [locI]), (ttlJ, [locJ]), (ttlK, [locK])]
      (⟨4, [locD, locC, locB, locA], [⟨start₀, ttlA⟩, ⟨start₀, ttlB⟩, ⟨start₀, ttlC⟩, ⟨start₀, ttlD⟩]⟩ : WalkState String) start₀
      (by decide) (geoHome_ok locE) start₀_ne start₀_close (by decide)
  have s6 : walkFilms (get_coordinates envHome) start₀ (some 2000)
      [(ttlF, [locF]), (ttlG, [locG]), (ttlH, [locH]), (ttlI, [locI]), (ttlJ, [locJ]), (ttlK, [locK])]
      (⟨5, [locE, locD, locC, locB, locA], [⟨start₀, ttlA⟩, ⟨start₀, ttlB⟩, ⟨start₀, ttlC⟩, ⟨start₀, ttlD⟩, ⟨start₀, ttlE⟩]⟩ : WalkState String) =
      walkFilms (get_coordinates envHome) start₀ (some 2000)
      [(ttlG, [locG]), (ttlH, [locH]), (ttlI, [locI]), (ttlJ, [locJ]), (ttlK, [locK])]
      (⟨6, [locF, locE, locD, locC, locB, locA], [⟨start₀, ttlA⟩, ⟨start₀, ttlB⟩, ⟨start₀, ttlC⟩, ⟨start₀, ttlD⟩, ⟨start₀, ttlE⟩, ⟨start₀, ttlF⟩]⟩ : WalkState String) :=
    walkFilms_step_single (get_coordinates envHome) start₀ 2000 ttlF locF
      [(ttlG, [locG]), (ttlH, [locH]), (ttlI, [locI]), (ttlJ, [locJ]), (ttlK, [locK])]
      (⟨5, [locE, locD, locC, locB, locA], [⟨start₀, ttlA⟩, ⟨start₀, ttlB⟩, ⟨start₀, ttlC⟩, ⟨start₀, ttlD⟩, ⟨start₀, ttlE⟩]⟩ : WalkState String) start₀
      (by decide) (geoHome_ok locF) start₀_ne start₀_close (by decide)
  have s7 : walkFilms (get_coordinates envHome) start₀ (some 2000)
      [(ttlG, [locG]), (ttlH, [locH]), (ttlI, [locI]), (ttlJ, [locJ]), (ttlK, [locK])]
      (⟨6, [locF, locE, locD, locC, locB, locA], [⟨start₀, ttlA⟩, ⟨start₀, ttlB⟩, ⟨start₀, ttlC⟩, ⟨start₀, ttlD⟩, ⟨start₀, ttlE⟩, ⟨start₀, ttlF⟩]⟩ : WalkState String) =
      walkFilms (get_coordinates envHome) start₀ (some 2000)
      [(ttlH, [locH]), (ttlI, [locI]), (ttlJ, [locJ]), (ttlK, [locK])]
      (⟨7, [locG, locF, locE, locD, locC, locB, locA], [⟨start₀, ttlA⟩, ⟨start₀, ttlB⟩, ⟨start₀, ttlC⟩, ⟨start₀, ttlD⟩, ⟨start₀, ttlE⟩, ⟨start₀, ttlF⟩, ⟨start₀, ttlG⟩]⟩ : WalkState String) :=
    walkFilms_step_single (get_coordinates envHome) start₀ 2000 ttlG locG
      [(ttlH, [locH]), (ttlI, [locI]), (ttlJ, [locJ]), (ttlK, [locK])]
      (⟨6, [locF, locE, locD, locC, locB, locA], [⟨start₀, ttlA⟩, ⟨start₀, ttlB⟩, ⟨start₀, ttlC⟩, ⟨start₀, ttlD⟩, ⟨start₀, ttlE⟩, ⟨start₀, ttlF⟩]⟩ : WalkState String) start₀
      (by decide) (geoHome_ok locG) start₀_ne start₀_close (by decide)
  have s8 : walkFilms (get_coordinates envHome) start₀ (some 2000)
      [(ttlH, [locH]), (ttlI, [locI]), (ttlJ, [locJ]), (ttlK, [locK])]
      (⟨7, [locG, locF, locE, locD, locC, locB, locA], [⟨start₀, ttlA⟩, ⟨start₀, ttlB⟩, ⟨start₀, ttlC⟩, ⟨start₀, ttlD⟩, ⟨start₀, ttlE⟩, ⟨start₀, ttlF⟩, ⟨start₀, ttlG⟩]⟩ : WalkState String) =
      walkFilms (get_coordinates envHome) start₀ (some 2000)
      [(ttlI, [locI]), (ttlJ, [locJ]), (ttlK, [locK])]
      (⟨8, [locH, locG, locF, locE, locD, locC, locB, locA], [⟨start₀, ttlA⟩, ⟨start₀, ttlB⟩, ⟨start₀, ttlC⟩, ⟨start₀, ttlD⟩, ⟨start₀, ttlE⟩, ⟨start₀, ttlF⟩, ⟨start₀, ttlG⟩, ⟨start₀, ttlH⟩]⟩ : WalkState String) :=
    walkFilms_step_single (get_coordinates envHome) start₀ 2000 ttlH locH
      [(ttlI, [locI]), (ttlJ, [locJ]), (ttlK, [locK])]
      (⟨7, [locG, locF, locE, locD, locC, locB, locA], [⟨start₀, ttlA⟩, ⟨start₀, ttlB⟩, ⟨start₀, ttlC⟩, ⟨start₀, ttlD⟩, ⟨start₀, ttlE⟩, ⟨start₀, ttlF⟩, ⟨start₀, ttlG⟩]⟩ : WalkState String) start₀
      (by decide) (geoHome_ok locH) start₀_ne start₀_close (by decide)
  have s9 : walkFilms (get_coordinates envHome) start₀ (some 2000)
      [(ttlI, [locI]), (ttlJ, [locJ]), (ttlK, [locK])]
      (⟨8, [locH, locG, locF, locE, locD, locC, locB, locA], [⟨start₀, ttlA⟩, ⟨start₀, ttlB⟩, ⟨start₀, ttlC⟩, ⟨start₀, ttlD⟩, ⟨start₀, ttlE⟩, ⟨start₀, ttlF⟩, ⟨start₀, ttlG⟩, ⟨start₀, ttlH⟩]⟩ : WalkState String) =
      walkFilms (get_coordinates envHome) start₀ (some 2000)
      [(ttlJ, [locJ]), (ttlK, [locK])]
      (⟨9, [locI, locH, locG, locF, locE, locD, locC, locB, locA], [⟨start₀, ttlA⟩, ⟨start₀, ttlB⟩, ⟨start₀, ttlC⟩, ⟨start₀, ttlD⟩, ⟨start₀, ttlE⟩, ⟨start₀, ttlF⟩, ⟨start₀, ttlG⟩, ⟨start₀, ttlH⟩, ⟨start₀, ttlI⟩]⟩ : WalkState String) :=
    walkFilms_step_single (get_coordinates envHome) start₀ 2000 ttlI locI
      [(ttlJ, [locJ]), (ttlK, [locK])]
      (⟨8, [locH, locG, locF, locE, locD, locC, locB, locA], [⟨start₀, ttlA⟩, ⟨start₀, ttlB⟩, ⟨start₀, ttlC⟩, ⟨start₀, ttlD⟩, ⟨start₀, ttlE⟩, ⟨start₀, ttlF⟩, ⟨start₀, ttlG⟩, ⟨start₀, ttlH⟩]⟩ : WalkState String) start₀
      (by decide) (geoHome_ok locI) start₀_ne start₀_close (by decide)
  have s10 : walkFilms (get_coordinates envHome) start₀ (some 2000)
      [(ttlJ, [locJ]), (ttlK, [locK])]
      (⟨9, [locI, locH, locG, locF, locE, locD, locC, locB, locA], [⟨start₀, ttlA⟩, ⟨start₀, ttlB⟩, ⟨start₀, ttlC⟩, ⟨start₀, ttlD⟩, ⟨start₀, ttlE⟩, ⟨start₀, ttlF⟩, ⟨start₀, ttlG⟩, ⟨start₀, ttlH⟩, ⟨start₀, ttlI⟩]⟩ : WalkState String) =
      walkFilms (get_coordinates envHome) start₀ (some 2000)
      [(ttlK, [locK])]
      (⟨10, [locJ, locI, locH, locG, locF, locE, locD, locC, locB, locA], [⟨start₀, ttlA⟩, ⟨start₀, ttlB⟩, ⟨start₀, ttlC⟩, ⟨start₀, ttlD⟩, ⟨start₀, ttlE⟩, ⟨start₀, ttlF⟩, ⟨start₀, ttlG⟩, ⟨start₀, ttlH⟩, ⟨start₀, ttlI⟩, ⟨start₀, ttlJ⟩]⟩ : WalkState String) :=
    walkFilms_step_single (get_coordinates envHome) start₀ 2000 ttlJ locJ
      [(ttlK, [locK])]
      (⟨9, [locI, locH, locG, locF, locE, locD, locC, locB, locA], [⟨start₀, ttlA⟩, ⟨start₀, ttlB⟩, ⟨start₀, ttlC⟩, ⟨start₀, ttlD⟩, ⟨start₀, ttlE⟩, ⟨start₀, ttlF⟩, ⟨start₀, ttlG⟩, ⟨start₀, ttlH⟩, ⟨start₀, ttlI⟩]⟩ : WalkState String) start₀
      (by decide) (geoHome_ok locJ) start₀_ne start₀_close (by decide)
  have s11 : walkFilms (get_coordinates envHome) start₀ (some 2000)
      [(ttlK, [locK])]
      (⟨10, [locJ, locI, locH, locG, locF, locE, locD, locC, locB, locA], [⟨start₀, ttlA⟩, ⟨start₀, ttlB⟩, ⟨start₀, ttlC⟩, ⟨start₀, ttlD⟩, ⟨start₀, ttlE⟩, ⟨start₀, ttlF⟩, ⟨start₀, ttlG⟩, ⟨start₀, ttlH⟩, ⟨start₀, ttlI⟩, ⟨start₀, ttlJ⟩]⟩ : WalkState String) =
      .ok (⟨10, [locJ, locI, locH, locG, locF, locE, locD, locC, locB, locA], [⟨start₀, ttlA⟩, ⟨start₀, ttlB⟩, ⟨start₀, ttlC⟩, ⟨start₀, ttlD⟩, ⟨start₀, ttlE⟩, ⟨start₀, ttlF⟩, ⟨start₀, ttlG⟩, ⟨start₀, ttlH⟩, ⟨start₀, ttlI⟩, ⟨start₀, ttlJ⟩]⟩ : WalkState String) :=
    walkFilms_stop (get_coordinates envHome) start₀ (some 2000)
      [(ttlK, [locK])]
      (⟨10, [locJ, locI, locH, locG, locF, locE, locD, locC, locB, locA], [⟨start₀, ttlA⟩, ⟨start₀, ttlB⟩, ⟨start₀, ttlC⟩, ⟨start₀, ttlD⟩, ⟨start₀, ttlE⟩, ⟨start₀, ttlF⟩, ⟨start₀, ttlG⟩, ⟨start₀, ttlH⟩, ⟨start₀, ttlI⟩, ⟨start₀, ttlJ⟩]⟩ : WalkState String) (by decide)
  simp only [generate_map, h1, s1, s2, s3, s4, s5, s6, s7, s8, s9, s10, s11]
  rfl

end

section

open scoped Classical

/-- C1 (amended): the cap check `number >= 10` runs only at film boundaries.
First conjunct: once the counter is at least 10 no further film is started,
in either mode and for any state.  Second conjunct: inside a film, placement
continues past the cap — from a state whose counter already equals 10 a
qualifying location is still placed and the counter moves to 11.  Hence the
walk does not halt mid-film and one film can push the map beyond 10
markers. -/
theorem claim_C1 :
    (∀ (Elem : Type) (geoE : Elem → Except PyError (ℝ × ℝ)) (start : ℝ × ℝ)
      (radius : Option ℝ) (films : List (String × List Elem)) (st : WalkState Elem),
      10 ≤ st.number → walkFilms geoE start radius films st = .ok st) ∧
    placeLocations (get_coordinates envHome) start₀ (some 2000) filmF [locA]
      ⟨10, [], []⟩ = .ok ⟨11, [locA], [markerF]⟩ := by
  constructor
  · intro Elem geoE start radius films st h
    exact walkFilms_stop geoE start radius films st h
  · rw [placeLocations_cons_place (get_coordinates envHome) start₀ 2000 filmF locA []
      ⟨10, [], []⟩ start₀ (geoHome_ok locA) start₀_ne start₀_close (by decide)]
    exact placeLocations_nil (get_coordinates envHome) start₀ (some 2000) filmF _

/-- C1 witness: the amended halting rule applied at a concrete state with
counter 10 — the walk returns at once without touching the remaining film. -/
theorem claim_C1_witness :
    10 ≤ (⟨10, [], []⟩ : WalkState String).number ∧
    walkFilms (get_coordinates envHome) start₀ (some 2000) [(filmF, [locA])]
      ⟨10, [], []⟩ = .ok ⟨10, [], []⟩ :=
  ⟨by decide, claim_C1.1 String (get_coordinates envHome) start₀ (some 2000)
    [(filmF, [locA])] ⟨10, [], []⟩ (by decide)⟩

/-- C1 counterexample: a radius-mode run on one film with eleven distinct
locations, all geocoding to the reference point, completes with eleven
markers — the counter passes the cap of 10 mid-film and the saved map holds
more than 10 markers, refuting the claimed mid-film halt. -/
theorem claim_C1_counterexample :
    generate_map envHome start₀ lines₁ 2018 (some 2000) =
      .ok (List.replicate 11 markerF, 1) ∧
    10 < (List.replicate 11 markerF).length :=
  ⟨run_lines₁, by decide⟩

/-- C2 (amended): the marker cap is the literal 10 in both modes — the break
condition compares the counter with 10 whatever the radius argument is
(first conjunct), and a radius-mode run with eleven single-location films
stops after exactly 10 markers (second conjunct), never reaching 20. -/
theorem claim_C2 :
    (∀ (Elem : Type) (geoE : Elem → Except PyError (ℝ × ℝ)) (start : ℝ × ℝ)
      (radius : Option ℝ) (films : List (String × List Elem)) (st : WalkState Elem),
      st.number = 10 → walkFilms geoE start radius films st = .ok st) ∧
    (generate_map envHome start₀ lines₂ 2018 (some 2000) = .ok (markers₂, 1) ∧
      markers₂.length = 10) := by
  refine ⟨?_, run_lines₂, rfl⟩
  intro Elem geoE start radius films st h
  exact walkFilms_stop geoE start radius films st (by omega)

/-- C2 witness: the cap rule of the amended claim applied at a concrete
state with counter exactly 10, in radius mode. -/
theorem claim_C2_witness :
    (⟨10, [], []⟩ : WalkState String).number = 10 ∧
    walkFilms (get_coordinates envHome) start₀ (some 2000) [(ttlK, [locK])]
      ⟨10, [], []⟩ = .ok ⟨10, [], []⟩ :=
  ⟨rfl, claim_C2.1 String (get_coordinates envHome) start₀ (some 2000)
    [(ttlK, [locK])] ⟨10, [], []⟩ rfl⟩

/-- C2 counterexample: in radius mode eleven films, each with one distinct
location geocoding to the reference point, yield exactly 10 markers, and the
eleventh film's location qualified (non-sentinel coordinates within the
radius) yet got no marker — so the radius-mode cap is 10, not 20. -/
theorem claim_C2_counterexample :
    generate_map envHome start₀ lines₂ 2018 (some 2000) = .ok (markers₂, 1) ∧
    markers₂.length = 10 ∧
    get_coordinates envHome locK = .ok start₀ ∧
    start₀ ≠ ((0 : ℝ), (0 : ℝ)) ∧
    calculate_distance (start₀, start₀) ≤ 2000 ∧
    ∀ m ∈ markers₂, m.popup ≠ ttlK :=
  ⟨run_lines₂, rfl, geoHome_ok locK, start₀_ne, start₀_close, by decide⟩

/-- C3: the claim is right about the intent (malformed short lines must be
tolerated) but the code crashes: a data line consisting of a single field
that begins with a parenthesis makes `get_locations` evaluate `info[-2]` on
a one-element list, raising an uncaught `IndexError`. -/
theorem claim_C3 : get_locations lines₃ = .error .indexError := rfl

/-- C4 (amended): `get_coordinates` maps an empty result list and a JSON
decoding failure to the `[0, 0]` sentinel and returns the first result's
coordinates otherwise; but a network failure propagates as an uncaught
exception (as does a first result without parseable `lat`/`lon` fields)
instead of degrading to the sentinel. -/
theorem claim_C4 :
    (∀ (env : String → GeoResponse) (addr : String),
      env addr = GeoResponse.badJson →
      get_coordinates env addr = .ok ((0 : ℝ), (0 : ℝ))) ∧
    (∀ (env : String → GeoResponse) (addr : String),
      env addr = GeoResponse.json [] →
      get_coordinates env addr = .ok ((0 : ℝ), (0 : ℝ))) ∧
    (∀ (env : String → GeoResponse) (addr : String) (c : ℝ × ℝ)
      (rest : List (Option (ℝ × ℝ))),
      env addr = GeoResponse.json (some c :: rest) →
      get_coordinates env addr = .ok c) ∧
    (∀ (env : String → GeoResponse) (addr : String),
      env addr = GeoResponse.networkFailure →
      get_coordinates env addr = .error .connectionError) ∧
    (∀ (env : String → GeoResponse) (addr : String)
      (rest : List (Option (ℝ × ℝ))),
      env addr = GeoResponse.json (none :: rest) →
      get_coordinates env addr = .error .keyError) := by
  refine ⟨?_, ?_, ?_, ?_, ?_⟩
  · intro env addr h
    simp [get_coordinates, h]
  · intro env addr h
    simp [get_coordinates, h]
  · intro env addr c rest h
    simp [get_coordinates, h]
  · intro env addr h
    simp [get_coordinates, h]
  · intro env addr rest h
    simp [get_coordinates, h]

/-- C4 witness: the amended behaviour at concrete lookups — an empty result
list degrades to the sentinel, a network failure escapes. -/
theorem claim_C4_witness :
    (envEmpty addr₀ = GeoResponse.json [] ∧
      get_coordinates envEmpty addr₀ = .ok ((0 : ℝ), (0 : ℝ))) ∧
    (envNet addr₀ = GeoResponse.networkFailure ∧
      get_coordinates envNet addr₀ = .error .connectionError) :=
  ⟨⟨rfl, claim_C4.2.1 envEmpty addr₀ rfl⟩,
    ⟨rfl, claim_C4.2.2.2.1 envNet addr₀ rfl⟩⟩

/-- C4 counterexample: under a geocoder whose lookup suffers a network
failure, `get_coordinates` does not return a coordinate pair or the
sentinel — it aborts with the uncaught exception, refuting the claim that
every lookup failure is mapped to the sentinel. -/
theorem claim_C4_counterexample :
    get_coordinates envNet addr₀ = .error .connectionError ∧
    (get_coordinates envNet addr₀).toOption = none :=
  ⟨rfl, rfl⟩

/-- C5: `calculate_distance` is exactly the haversine formula of the
specification with Earth radius 6371 (term-for-term equal to the
spec-transcribed `haversine_spec`), it is symmetric, zero on equal points,
and on the sample points the distances are within 0.1 km of 10007.5 km
(for (0,0)–(0,90)) and of 20015 km (for (0,0)–(0,180)). -/
theorem claim_C5 :
    (∀ lat1 lon1 lat2 lon2 : ℝ,
      calculate_distance ((lat1, lon1), (lat2, lon2)) =
        haversine_spec lat1 lon1 lat2 lon2) ∧
    (∀ p q : ℝ × ℝ, calculate_distance (p, q) = calculate_distance (q, p)) ∧
    (∀ p : ℝ × ℝ, calculate_distance (p, p) = 0) ∧
    |calculate_distance ((0, 0), (0, 90)) - 10007.5| < 1 / 10 ∧
    |calculate_distance ((0, 0), (0, 180)) - 20015| < 1 / 10 :=
  ⟨calculate_distance_eq_spec, calculate_distance_comm, calculate_distance_self,
    calculate_distance_0_90, calculate_distance_0_180⟩

/-- C6: on any file whose decodable data lines all have at least two
tab-separated fields, `get_locations` succeeds and returns exactly the
mapping described by the specification: skip 14 lines, split on tab, title
is the first field, location is the last field or the second-to-last when
the last starts with a parenthesis, stripped, appended in line order under
one key per title. -/
theorem claim_C6 (lines : List (Option String))
    (h : ∀ os ∈ lines.drop 14, lineOk os) :
    get_locations lines = .ok (get_locations_spec lines) := by
  unfold get_locations get_locations_spec
  exact buildLocations_spec (lines.drop 14) [] h

/-- C6 witness: a concrete file exercising the parenthetical rule and title
accumulation; the hypothesis and both sides evaluate by computation. -/
theorem claim_C6_witness :
    (∀ os ∈ lines₆.drop 14, lineOk os) ∧
    get_locations lines₆ = .ok (get_locations_spec lines₆) ∧
    get_locations_spec lines₆ = [(ttlT, [locCity, locS])] :=
  ⟨by decide, claim_C6 lines₆ (by decide), by decide⟩

end

section

open scoped Classical

/-- C7: `sort_by_distance` under a lookup that yields a pure coordinate map
`g` returns, per film, exactly the stable ascending sort of the
`(distance, location)` pairs of the locations whose geocode is not the
sentinel (first conjunct); the sort output is pairwise ascending by
distance, a permutation of its input, and stable — entries with any given
key keep their original relative order (next three conjuncts); and on
distances [50, 5, 200] the sorted order is [5, 50, 200] (last conjunct). -/
theorem claim_C7 :
    (∀ (env : String → GeoResponse) (g : String → ℝ × ℝ) (start : ℝ × ℝ)
      (films : List (String × List String)),
      (∀ f ∈ films, ∀ loc ∈ f.2, get_coordinates env loc = .ok (g loc)) →
      sort_by_distance env films start =
        .ok (films.map fun fl =>
          (fl.1, sortPairs ((fl.2.filter fun loc =>
            decide (g loc ≠ ((0 : ℝ), (0 : ℝ)))).map fun loc =>
              (calculate_distance (start, g loc), loc))))) ∧
    (∀ l : List (ℝ × String), (sortPairs l).Pairwise fun a b => a.1 ≤ b.1) ∧
    (∀ l : List (ℝ × String), List.Perm (sortPairs l) l) ∧
    (∀ (l : List (ℝ × String)) (k : ℝ),
      (sortPairs l).filter (fun p => decide (p.1 = k)) =
        l.filter fun p => decide (p.1 = k)) ∧
    sortPairs [((50 : ℝ), sA), (5, sB), (200, sC)] =
      [((5 : ℝ), sB), (50, sA), (200, sC)] :=
  ⟨fun env g start films h => sort_by_distance_ok env g start films h,
    sortPairs_pairwise, sortPairs_perm, sortPairs_filter, sortPairs_example⟩

/-- C7 witness: the per-film characterisation applied to a concrete geocoder
that sends every query to the reference point. -/
theorem claim_C7_witness :
    (∀ f ∈ [(ttlT, [locA, locB])], ∀ loc ∈ f.2,
      get_coordinates envHome loc = .ok (gHome loc)) ∧
    sort_by_distance envHome [(ttlT, [locA, locB])] start₀ =
      .ok ([(ttlT, [locA, locB])].map fun fl =>
        (fl.1, sortPairs ((fl.2.filter fun loc =>
          decide (gHome loc ≠ ((0 : ℝ), (0 : ℝ)))).map fun loc =>
            (calculate_distance (start₀, gHome loc), loc)))) :=
  ⟨fun f _ loc _ => rfl,
    claim_C7.1 envHome gHome start₀ [(ttlT, [locA, locB])] fun f _ loc _ => rfl⟩

/-- C8: no marker is ever placed at the sentinel coordinate.  First
conjunct: in any completed run, every marker of the saved map has
coordinates different from `(0, 0)`, in either mode.  Second conjunct: a
film all of whose locations geocode to the sentinel leaves the walk state
untouched — it contributes zero markers. -/
theorem claim_C8 :
    (∀ (env : String → GeoResponse) (start : ℝ × ℝ) (lines : List (Option String))
      (year : Int) (radius : Option ℝ) (markers : List Marker) (n : Nat),
      generate_map env start lines year radius = .ok (markers, n) →
      ∀ m ∈ markers, m.coordinates ≠ ((0 : ℝ), (0 : ℝ))) ∧
    (∀ (env : String → GeoResponse) (start : ℝ × ℝ) (radius : Option ℝ)
      (title : String) (locs : List String) (st : WalkState String),
      (∀ loc ∈ locs, get_coordinates env loc = .ok ((0 : ℝ), (0 : ℝ))) →
      placeLocations (get_coordinates env) start radius title locs st = .ok st) := by
  constructor
  · intro env start lines year radius markers n hg m hmem
    simp only [generate_map] at hg
    cases hL : get_locations lines with
    | error e => rw [hL] at hg; exact Except.noConfusion hg
    | ok locs =>
      rw [hL] at hg
      cases radius with
      | none =>
        dsimp only at hg
        cases hs : sort_by_distance env locs start with
        | error e => rw [hs] at hg; exact Except.noConfusion hg
        | ok sortedL =>
          rw [hs] at hg
          dsimp only at hg
          cases hw : walkFilms geocodePair start none sortedL ⟨0, [], []⟩ with
          | error e => rw [hw] at hg; exact Except.noConfusion hg
          | ok st =>
            rw [hw] at hg
            simp only [Except.ok.injEq, Prod.mk.injEq] at hg
            obtain ⟨hm, _⟩ := hg
            rw [← hm] at hmem
            exact walkFilms_markers geocodePair start none sortedL ⟨0, [], []⟩ st hw
              (fun m' hm' => absurd hm' (List.not_mem_nil m')) m hmem
      | some r =>
        dsimp only at hg
        cases hw : walkFilms (get_coordinates env) start (some r) locs ⟨0, [], []⟩ with
        | error e => rw [hw] at hg; exact Except.noConfusion hg
        | ok st =>
          rw [hw] at hg
          simp only [Except.ok.injEq, Prod.mk.injEq] at hg
          obtain ⟨hm, _⟩ := hg
          rw [← hm] at hmem
          exact walkFilms_markers (get_coordinates env) start (some r) locs
            ⟨0, [], []⟩ st hw (fun m' hm' => absurd hm' (List.not_mem_nil m')) m hmem
  · intro env start radius title locs st h
    exact placeLocations_all_sentinel (get_coordinates env) start radius title locs st h

/-- C8 witness: a run whose every lookup yields the sentinel completes with
an empty marker list, and the all-sentinel film leaves the state unchanged. -/
theorem claim_C8_witness :
    generate_map envEmpty start₀ lines₈ 2018 (some 2000) = .ok ([], 1) ∧
    (∀ m ∈ ([] : List Marker), m.coordinates ≠ ((0 : ℝ), (0 : ℝ))) ∧
    (∀ loc ∈ [locA, locB], get_coordinates envEmpty loc = .ok ((0 : ℝ), (0 : ℝ))) ∧
    placeLocations (get_coordinates envEmpty) start₀ (some 2000) ttlT [locA, locB]
      ⟨0, [], []⟩ = .ok ⟨0, [], []⟩ :=
  ⟨run_lines₈,
    claim_C8.1 envEmpty start₀ lines₈ 2018 (some 2000) [] 1 run_lines₈,
    fun loc _ => rfl,
    claim_C8.2 envEmpty start₀ (some 2000) ttlT [locA, locB] ⟨0, [], []⟩
      fun loc _ => rfl⟩

/-- C9: deduplication is by raw location value.  First conjunct: the walk
keeps the visited set duplicate-free and adds exactly one marker per newly
visited raw value (marker count and visited count grow in lock step).
Second conjunct: two films sharing the identical raw location string produce
exactly one marker, labelled with the first-processed film's title. -/
theorem claim_C9 :
    (∀ (Elem : Type) (geoE : Elem → Except PyError (ℝ × ℝ)) (start : ℝ × ℝ)
      (radius : Option ℝ) (films : List (String × List Elem))
      (st st' : WalkState Elem),
      walkFilms geoE start radius films st = .ok st' → st.visited.Nodup →
      st'.visited.Nodup ∧
        st'.markers.length + st.visited.length =
          st.markers.length + st'.visited.length) ∧
    generate_map envHome start₀ lines₉ 2018 (some 2000) =
      .ok ([⟨start₀, ttlF1⟩], 1) := by
  constructor
  · intro Elem geoE start radius films st st' h hnd
    exact walkFilms_dedup geoE start radius films st st' h hnd
  · exact run_lines₉

/-- C9 witness: the dedup invariant applied to the concrete two-film run
with a shared location string — one marker, one visited entry. -/
theorem claim_C9_witness :
    walkFilms (get_coordinates envHome) start₀ (some 2000)
      [(ttlF1, [locS]), (ttlF2, [locS])] (⟨0, [], []⟩ : WalkState String) =
      .ok ⟨1, [locS], [⟨start₀, ttlF1⟩]⟩ ∧
    ([] : List String).Nodup ∧
    ([locS].Nodup ∧ 1 + 0 = 0 + 1) := by
  refine ⟨walk_lines₉, List.nodup_nil, ?_⟩
  exact claim_C9.1 String (get_coordinates envHome) start₀ (some 2000)
    [(ttlF1, [locS]), (ttlF2, [locS])] ⟨0, [], []⟩ ⟨1, [locS], [⟨start₀, ttlF1⟩]⟩
    walk_lines₉ List.nodup_nil

/-- C10: in ranked mode (`radius = None`), whenever at least one location
geocodes away from the sentinel, `generate_map` aborts with the uncaught
`TypeError` from passing a `[distance, location]` pair to `get_coordinates`,
before placing any marker; and it completes — saving the map and returning
1, with no markers — exactly when every film's sorted list is empty. -/
theorem claim_C10 (env : String → GeoResponse) (g : String → ℝ × ℝ) (start : ℝ × ℝ)
    (lines : List (Option String)) (year : Int) (locs : List (String × List String))
    (hL : get_locations lines = .ok locs)
    (hg : ∀ f ∈ locs, ∀ loc ∈ f.2, get_coordinates env loc = .ok (g loc)) :
    ((∃ f ∈ locs, ∃ loc ∈ f.2, g loc ≠ ((0 : ℝ), (0 : ℝ))) →
      generate_map env start lines year none = .error .typeError) ∧
    ((∀ f ∈ locs, ∀ loc ∈ f.2, g loc = ((0 : ℝ), (0 : ℝ))) →
      generate_map env start lines year none = .ok ([], 1)) := by
  have hs := sort_by_distance_ok env g start locs hg
  constructor
  · rintro ⟨f, hf, loc, hloc, hne⟩
    have hmem : loc ∈ f.2.filter fun l => decide (g l ≠ ((0 : ℝ), (0 : ℝ))) :=
      List.mem_filter.mpr ⟨hloc, decide_eq_true hne⟩
    have hker : walkFilms geocodePair start none
        (locs.map fun fl => (fl.1, sortPairs ((fl.2.filter fun l =>
          decide (g l ≠ ((0 : ℝ), (0 : ℝ)))).map fun l =>
            (calculate_distance (start, g l), l)))) ⟨0, [], []⟩ =
        .error .typeError := by
      refine walkFilms_ranked_err start _ ⟨0, [], []⟩ (by decide) ?_
      refine ⟨(f.1, sortPairs ((f.2.filter fun l =>
        decide (g l ≠ ((0 : ℝ), (0 : ℝ)))).map fun l =>
          (calculate_distance (start, g l), l))), List.mem_map_of_mem _ hf, ?_⟩
      intro hnil
      have hnil' : sortPairs ((f.2.filter fun l =>
          decide (g l ≠ ((0 : ℝ), (0 : ℝ)))).map fun l =>
            (calculate_distance (start, g l), l)) = [] := hnil
      have hperm := sortPairs_perm ((f.2.filter fun l =>
        decide (g l ≠ ((0 : ℝ), (0 : ℝ)))).map fun l =>
          (calculate_distance (start, g l), l))
      rw [hnil'] at hperm
      have hmap := List.Perm.eq_nil hperm.symm
      rw [List.map_eq_nil_iff] at hmap
      exact List.not_mem_nil loc (hmap ▸ hmem)
    simp only [generate_map, hL, hs, hker]
  · intro hall
    have hempty : ∀ f' ∈ (locs.map fun fl => (fl.1, sortPairs ((fl.2.filter fun l =>
        decide (g l ≠ ((0 : ℝ), (0 : ℝ)))).map fun l =>
          (calculate_distance (start, g l), l)))), f'.2 = [] := by
      intro f' hm'
      obtain ⟨f, hf, rfl⟩ := List.mem_map.mp hm'
      have hfe : (f.2.filter fun l => decide (g l ≠ ((0 : ℝ), (0 : ℝ)))) = [] := by
        apply List.filter_eq_nil_iff.mpr
        intro a ha hcontra
        rw [decide_eq_true_eq] at hcontra
        exact hcontra (hall f hf a ha)
      dsimp only
      rw [hfe]
      rfl
    have hker := walkFilms_ranked_empty start _ ⟨0, [], []⟩ hempty
    simp only [generate_map, hL, hs, hker]

/-- C10 witness: one film, one location resolving to the reference point —
ranked mode aborts with the `TypeError`. -/
theorem claim_C10_witness :
    get_locations lines₁₀ = .ok [(ttlT, [locA])] ∧
    (∀ f ∈ [(ttlT, [locA])], ∀ loc ∈ f.2,
      get_coordinates envHome loc = .ok (gHome loc)) ∧
    (∃ f ∈ [(ttlT, [locA])], ∃ loc ∈ f.2, gHome loc ≠ ((0 : ℝ), (0 : ℝ))) ∧
    generate_map envHome start₀ lines₁₀ 2018 none = .error .typeError := by
  have hL : get_locations lines₁₀ = .ok [(ttlT, [locA])] := rfl
  have hg : ∀ f ∈ [(ttlT, [locA])], ∀ loc ∈ f.2,
      get_coordinates envHome loc = .ok (gHome loc) := fun f _ loc _ => rfl
  have hex : ∃ f ∈ [(ttlT, [locA])], ∃ loc ∈ f.2,
      gHome loc ≠ ((0 : ℝ), (0 : ℝ)) :=
    ⟨(ttlT, [locA]), List.mem_cons_self _ _, locA, List.mem_cons_self _ _, start₀_ne⟩
  exact ⟨hL, hg, hex,
    (claim_C10 envHome gHome start₀ lines₁₀ 2018 [(ttlT, [locA])] hL hg).1 hex⟩

end
